import Mathlib

/-!
# Verification of the christtasks RAG chat backend

Shallow embedding of the core of the repository:

* `app/services/rate_limiting_service.py` — durable per-user quota ledger
  (SHA-256-hashed identity, daily/monthly counters with lazy rollover);
* `app/services/openai_service.py` — answer composer word-limit truncation;
* `app/services/pinecone_service.py` — retrieval gateway `search_similar`;
* `app/routes/chat.py` — request orchestrator (`chat` endpoint) and the
  identity resolver `_get_user_key`.

Python strings are modelled as `String` (manipulated through their character
lists), Python ints as `Nat`/`Int`, `datetime.utcnow()` by the calendar date
it falls on (the code only reads `.date()`, `.year`, `.month` of timestamps),
the SQL row store as a list of records, and each remote capability (OpenAI,
Pinecone) as an oracle returning `Except`.
-/

/-! ## SHA-256 (model of Python `hashlib.sha256`)

`_get_user_hash` calls `hashlib.sha256(user_identifier.encode()).hexdigest()[:16]`.
We implement SHA-256 over byte lists with `Nat` arithmetic mod 2^32 so the
hash is a concrete pure function of the raw key alone. -/

/-- Truncate to a 32-bit word. -/
def w32 (n : Nat) : Nat := n % 4294967296

/-- Addition mod 2^32. -/
def add32 (a b : Nat) : Nat := (a + b) % 4294967296

/-- Right rotation of a 32-bit word by `n`. -/
def rotr32 (n x : Nat) : Nat := w32 ((x >>> n) ||| (x <<< (32 - n)))

/-- Big sigma 0. -/
def bsig0 (x : Nat) : Nat := (rotr32 2 x) ^^^ (rotr32 13 x) ^^^ (rotr32 22 x)

/-- Big sigma 1. -/
def bsig1 (x : Nat) : Nat := (rotr32 6 x) ^^^ (rotr32 11 x) ^^^ (rotr32 25 x)

/-- Small sigma 0. -/
def ssig0 (x : Nat) : Nat := (rotr32 7 x) ^^^ (rotr32 18 x) ^^^ (x >>> 3)

/-- Small sigma 1. -/
def ssig1 (x : Nat) : Nat := (rotr32 17 x) ^^^ (rotr32 19 x) ^^^ (x >>> 10)

/-- Choice function (`¬x` as xor with `2^32 - 1`). -/
def ch32 (x y z : Nat) : Nat := (x &&& y) ^^^ ((x ^^^ 4294967295) &&& z)

/-- Majority function. -/
def maj32 (x y z : Nat) : Nat := (x &&& y) ^^^ (x &&& z) ^^^ (y &&& z)

/-- The 64 SHA-256 round constants. -/
def sha256K : List Nat :=
  [1116352408, 1899447441, 3049323471, 3921009573, 961987163, 1508970993,
   2453635748, 2870763221, 3624381080, 310598401, 607225278, 1426881987,
   1925078388, 2162078206, 2614888103, 3248222580, 3835390401, 4022224774,
   264347078, 604807628, 770255983, 1249150122, 1555081692, 1996064986,
   2554220882, 2821834349, 2952996808, 3210313671, 3336571891, 3584528711,
   113926993, 338241895, 666307205, 773529912, 1294757372, 1396182291,
   1695183700, 1986661051, 2177026350, 2456956037, 2730485921, 2820302411,
   3259730800, 3345764771, 3516065817, 3600352804, 4094571909, 275423344,
   430227734, 506948616, 659060556, 883997877, 958139571, 1322822218,
   1537002063, 1747873779, 1955562222, 2024104815, 2227730452, 2361852424,
   2428436474, 2756734187, 3204031479, 3329325298]

/-- The running hash state: eight 32-bit words. -/
structure Hash8 where
  a : Nat
  b : Nat
  c : Nat
  d : Nat
  e : Nat
  f : Nat
  g : Nat
  h : Nat
deriving Repr, DecidableEq

/-- SHA-256 initial hash value. -/
def sha256InitH : Hash8 :=
  ⟨1779033703, 3144134277, 1013904242, 2773480762, 1359893119, 2600822924, 528734635, 1541459225⟩

/-- Big-endian byte list: the `k` bytes of `n`. -/
def bytesBE (k : Nat) (n : Nat) : List Nat :=
  (List.range k).map (fun i => (n >>> (8 * (k - 1 - i))) % 256)

/-- SHA-256 padding: append `0x80`, zeros to 56 mod 64, then the 64-bit
big-endian bit length. -/
def sha256Pad (msg : List Nat) : List Nat :=
  let padZeros := (120 - ((msg.length + 1) % 64)) % 64
  msg ++ [0x80] ++ List.replicate padZeros 0 ++ bytesBE 8 (msg.length * 8)

/-- Fuelled 64-byte chunking (structural recursion on the fuel, which the
caller sets to the list length so it never runs out). -/
def chunks64Go : Nat → List Nat → List (List Nat)
  | 0, _ => []
  | _, [] => []
  | fuel + 1, l => l.take 64 :: chunks64Go fuel (l.drop 64)

/-- Split a byte list into 64-byte chunks. -/
def chunks64 (l : List Nat) : List (List Nat) :=
  chunks64Go l.length l

/-- The 16 initial message-schedule words of a 64-byte chunk (big-endian). -/
def chunkWords (chunk : List Nat) : List Nat :=
  (List.range 16).map (fun i =>
    chunk.getD (4 * i) 0 * 16777216 + chunk.getD (4 * i + 1) 0 * 65536 +
    chunk.getD (4 * i + 2) 0 * 256 + chunk.getD (4 * i + 3) 0)

/-- Extend 16 schedule words to 64. -/
def sha256Schedule (ws : List Nat) : List Nat :=
  (List.range 48).foldl (fun acc _ =>
    let n := acc.length
    acc ++ [(ssig1 (acc.getD (n - 2) 0) + acc.getD (n - 7) 0 +
             ssig0 (acc.getD (n - 15) 0) + acc.getD (n - 16) 0) % 4294967296]) ws

/-- One compression round. -/
def sha256Round (st : Hash8) (kw : Nat × Nat) : Hash8 :=
  let t1 := (st.h + bsig1 st.e + ch32 st.e st.f st.g + kw.1 + kw.2) % 4294967296
  let t2 := (bsig0 st.a + maj32 st.a st.b st.c) % 4294967296
  ⟨add32 t1 t2, st.a, st.b, st.c, add32 st.d t1, st.e, st.f, st.g⟩

/-- Compress one 64-byte chunk into the hash state. -/
def sha256Compress (H : Hash8) (chunk : List Nat) : Hash8 :=
  let ws := sha256Schedule (chunkWords chunk)
  let st := (sha256K.zip ws).foldl sha256Round H
  ⟨add32 H.a st.a, add32 H.b st.b, add32 H.c st.c, add32 H.d st.d,
   add32 H.e st.e, add32 H.f st.f, add32 H.g st.g, add32 H.h st.h⟩

/-- The sixteen lowercase hex digits. -/
def hexDigits : List Char := "0123456789abcdef".data

/-- Hex digit of `n % 16`. -/
def hexChar (n : Nat) : Char := hexDigits.getD (n % 16) '0'

/-- Eight lowercase hex characters of a 32-bit word. -/
def wordHex (w : Nat) : List Char :=
  [hexChar (w >>> 28), hexChar (w >>> 24), hexChar (w >>> 20), hexChar (w >>> 16),
   hexChar (w >>> 12), hexChar (w >>> 8), hexChar (w >>> 4), hexChar w]

/-- The 64 hex characters of the SHA-256 digest of a byte list
(`hashlib.sha256(..).hexdigest()`). -/
def sha256HexChars (msg : List Nat) : List Char :=
  let H := (chunks64 (sha256Pad msg)).foldl sha256Compress sha256InitH
  wordHex H.a ++ wordHex H.b ++ wordHex H.c ++ wordHex H.d ++
  wordHex H.e ++ wordHex H.f ++ wordHex H.g ++ wordHex H.h

/-- UTF-8 encoding of one character: its code point as one to four bytes. -/
def utf8Bytes (c : Char) : List Nat :=
  let n := c.toNat
  if n < 128 then [n]
  else if n < 2048 then [192 + n / 64, 128 + n % 64]
  else if n < 65536 then [224 + n / 4096, 128 + n / 64 % 64, 128 + n % 64]
  else [240 + n / 262144, 128 + n / 4096 % 64, 128 + n / 64 % 64, 128 + n % 64]

/-- UTF-8 bytes of a string (Python `str.encode()`). -/
def strBytes (s : String) : List Nat := (s.data.map utf8Bytes).flatten

/-- Model of `RateLimitingService._get_user_hash`: the first 16 hex digits
of the SHA-256 digest of the UTF-8 encoded identifier. -/
def getUserHash (user_identifier : String) : String :=
  String.mk ((sha256HexChars (strBytes user_identifier)).take 16)

set_option maxRecDepth 100000 in
set_option maxHeartbeats 1000000 in
/-- Validation of the SHA-256 model against the FIPS 180-4 test vector for
the empty message. -/
theorem sha256_vector_empty :
    String.mk (sha256HexChars (strBytes "")) =
      "e3b0c44298fc1c149afbf4c8996fb92427ae41e4649b934ca495991b7852b855" := by
  decide

set_option maxRecDepth 100000 in
set_option maxHeartbeats 1000000 in
/-- Validation of the SHA-256 model against the FIPS 180-4 test vector for
the three-byte message abc. -/
theorem sha256_vector_abc :
    String.mk (sha256HexChars (strBytes "abc")) =
      "ba7816bf8f01cfea414140de5dae2223b00361a396177a9cb410ff61f20015ad" := by
  decide

/-! ## Quota ledger (`app/services/rate_limiting_service.py`)

`datetime.utcnow()` is modelled by the calendar date it falls on: the service
only ever reads `.date()`, `.year` and `.month` of `last_reset_date`, and
`_reset_daily_count_if_needed` overwrites it with the current time, so a
(year, month, day) triple carries all observable state. The SQLAlchemy row
store is a list of records; `db.commit()` writes the mutated record back. -/

/-- A calendar date, ordered lexicographically. -/
structure Date where
  year : Nat
  month : Nat
  day : Nat
deriving Repr, DecidableEq

/-- Comparison `last_reset.date() < now.date()`: lexicographic on (year, month, day). -/
def dateBefore (a b : Date) : Bool :=
  a.year < b.year || (a.year == b.year &&
    (a.month < b.month || (a.month == b.month && a.day < b.day)))

/-- Comparison of `(last_reset.year, last_reset.month)` with
`(now.year, now.month)`: Python tuple comparison, lexicographic. -/
def monthBefore (a b : Date) : Bool :=
  a.year < b.year || (a.year == b.year && a.month < b.month)

/-- A `user_usage` row (`app/models/user_usage.py`). The unused `id` and
`date` columns are omitted; counts are `Nat` (created at 0, only ever reset
to 0 or incremented). -/
structure UserUsage where
  user_id : String
  daily_message_count : Nat
  monthly_message_count : Nat
  last_reset_date : Date
deriving Repr, DecidableEq

/-- The persistent store: the list of `user_usage` rows. -/
abbrev UsageDb := List UserUsage

/-- Model of the row lookup `db.query(UserUsage).filter(...).first()`:
the first stored row with this user id. -/
def dbFirst (db : UsageDb) (user_id : String) : Option UserUsage :=
  db.find? (fun u => u.user_id == user_id)

/-- Model of `db.commit()` after mutating a fetched row: the row with this
user id is replaced by its mutated value. -/
def dbCommit (db : UsageDb) (u : UserUsage) : UsageDb :=
  db.map (fun r => if r.user_id == u.user_id then u else r)

/-- The constant `RateLimitingService.daily_limit`. -/
def dailyLimit : Nat := 25

/-- The constant `RateLimitingService.monthly_limit`. -/
def monthlyLimit : Nat := 750

/-- Model of `RateLimitingService._get_or_create_user_usage`. Returns the fetched or
newly created row together with the resulting store. -/
def getOrCreateUserUsage (db : UsageDb) (user_id : String) (now : Date) :
    UserUsage × UsageDb :=
  match dbFirst db user_id with
  | some u => (u, db)
  | none =>
    let u : UserUsage :=
      { user_id := user_id, daily_message_count := 0, monthly_message_count := 0,
        last_reset_date := now }
    (u, db ++ [u])

/-- Model of `RateLimitingService._reset_daily_count_if_needed`: if the stored day is
strictly before today, zero the daily count and set `last_reset_date = now`.
Returns the mutated record and the function's boolean result. -/
def resetDailyCountIfNeeded (u : UserUsage) (now : Date) : UserUsage × Bool :=
  if dateBefore u.last_reset_date now then
    ({ u with daily_message_count := 0, last_reset_date := now }, true)
  else (u, false)

/-- Model of `RateLimitingService._reset_monthly_count_if_needed`: if the stored
(year, month) is strictly before the current one, zero the monthly count.
`last_reset_date` is NOT updated here. -/
def resetMonthlyCountIfNeeded (u : UserUsage) (now : Date) : UserUsage × Bool :=
  if monthBefore u.last_reset_date now then
    ({ u with monthly_message_count := 0 }, true)
  else (u, false)

/-- The `usage_info` dict built by `check_rate_limit`. -/
structure UsageInfo where
  daily_used : Nat
  daily_limit : Nat
  monthly_used : Nat
  monthly_limit : Nat
deriving Repr, DecidableEq

/-- Result of `check_rate_limit`: the `(is_allowed, message, usage_info)`
triple plus the resulting store. -/
structure CheckResult where
  allowed : Bool
  message : String
  usage_info : UsageInfo
  db : UsageDb
deriving Repr

/-- The daily denial message built by `check_rate_limit`, with the limit of
25 interpolated. -/
def dailyLimitMsg : String :=
  "Daily limit of 25 messages exceeded. Try again tomorrow."

/-- The monthly denial message built by `check_rate_limit`, with the limit
of 750 interpolated. -/
def monthlyLimitMsg : String :=
  "Monthly limit of 750 messages exceeded. Limit resets next month."

/-- Model of `RateLimitingService.check_rate_limit`. Hashes the identifier, loads or
creates the row, applies the daily then the monthly lazy rollover (in that
order, on the same mutated record), commits if either fired, then checks the
daily and monthly limits. -/
def checkRateLimit (user_identifier : String) (db : UsageDb) (now : Date) :
    CheckResult :=
  let user_id := getUserHash user_identifier
  let gc := getOrCreateUserUsage db user_id now
  let rd := resetDailyCountIfNeeded gc.1 now
  let rm := resetMonthlyCountIfNeeded rd.1 now
  let u2 := rm.1
  let db2 := if rd.2 || rm.2 then dbCommit gc.2 u2 else gc.2
  let usage_info : UsageInfo :=
    { daily_used := u2.daily_message_count, daily_limit := dailyLimit,
      monthly_used := u2.monthly_message_count, monthly_limit := monthlyLimit }
  if u2.daily_message_count ≥ dailyLimit then
    { allowed := false, message := dailyLimitMsg, usage_info := usage_info, db := db2 }
  else if u2.monthly_message_count ≥ monthlyLimit then
    { allowed := false, message := monthlyLimitMsg, usage_info := usage_info, db := db2 }
  else
    { allowed := true, message := "Request allowed", usage_info := usage_info, db := db2 }

/-- Model of `RateLimitingService.increment_usage`: rollovers, then both counters
incremented, then commit. Returns the resulting store. -/
def incrementUsage (user_identifier : String) (db : UsageDb) (now : Date) :
    UsageDb :=
  let user_id := getUserHash user_identifier
  let gc := getOrCreateUserUsage db user_id now
  let u2 := (resetMonthlyCountIfNeeded (resetDailyCountIfNeeded gc.1 now).1 now).1
  let u3 := { u2 with daily_message_count := u2.daily_message_count + 1,
                      monthly_message_count := u2.monthly_message_count + 1 }
  dbCommit gc.2 u3

/-- The dict returned by `get_usage_stats`. The `remaining` fields are `Int`
because Python computes `max(0, limit - count)` over signed ints. -/
structure UsageStats where
  daily_used : Nat
  daily_remaining : Int
  daily_limit : Nat
  monthly_used : Nat
  monthly_remaining : Int
  monthly_limit : Nat
deriving Repr, DecidableEq

/-- Model of `RateLimitingService.get_usage_stats`: rollovers (not committed — the
Python function mutates the session object but never commits), then the
stats snapshot. -/
def getUsageStats (user_identifier : String) (db : UsageDb) (now : Date) :
    UsageStats :=
  let user_id := getUserHash user_identifier
  let gc := getOrCreateUserUsage db user_id now
  let u2 := (resetMonthlyCountIfNeeded (resetDailyCountIfNeeded gc.1 now).1 now).1
  { daily_used := u2.daily_message_count,
    daily_remaining := max 0 ((dailyLimit : Int) - (u2.daily_message_count : Int)),
    daily_limit := dailyLimit,
    monthly_used := u2.monthly_message_count,
    monthly_remaining := max 0 ((monthlyLimit : Int) - (u2.monthly_message_count : Int)),
    monthly_limit := monthlyLimit }

/-! ## Answer composer truncation (`app/services/openai_service.py`)

`_truncate_to_word_limit` works on Python strings; we manipulate the
character list of a `String`. `text.split()` splits on runs of whitespace
and discards empty pieces; `" ".join(...)` interleaves single spaces;
`str.rfind(".")` is the largest character index of `'.'` or `-1`;
`truncated[: i + 1]` is a character-prefix. -/

/-- Python `str.split()` whitespace (the ASCII cases: space, tab, newline,
carriage return, vertical tab, form feed). -/
def pyIsSpace (c : Char) : Bool :=
  c == ' ' || c == '\t' || c == '\n' || c == '\r' || c == '\x0b' || c == '\x0c'

/-- Python `text.split()`: split on runs of whitespace, no empty pieces. -/
def pySplitWords (l : List Char) : List (List Char) :=
  (l.splitOnP pyIsSpace).filter (fun w => w ≠ [])

/-- Python `" ".join(words)`. -/
def joinSpace : List (List Char) → List Char
  | [] => []
  | [w] => w
  | w :: ws => w ++ ' ' :: joinSpace ws

/-- One left-to-right pass remembering the index of the most recent
occurrence of `c`. -/
def lastIdxAux (c : Char) : List Char → Nat → Option Nat → Option Nat
  | [], _, acc => acc
  | x :: xs, i, acc => lastIdxAux c xs (i + 1) (if x == c then some i else acc)

/-- Index of the last occurrence of `c` in `l`, if any (`str.rfind`
without the `-1` sentinel). -/
def lastIdx (l : List Char) (c : Char) : Option Nat :=
  lastIdxAux c l 0 none

/-- Python `truncated.rfind(".")`: last index of `'.'`, or `-1`. -/
def pyRfindDot (l : List Char) : Int :=
  match lastIdx l '.' with
  | some i => (i : Int)
  | none => -1

/-- Model of `int(max_words * 0.6)`. For every `Nat` input this equals
`max_words * 6 / 10` (the float product `max_words * 0.6` rounds to a value
whose truncation is the exact one; at the only used value 300 both are 180). -/
def wordBudgetThreshold (max_words : Nat) : Nat := max_words * 6 / 10

/-- Model of `OpenAIService._truncate_to_word_limit`. -/
def truncateToWordLimit (text : String) (max_words : Nat) : String :=
  if text = "" then text
  else
    let words := pySplitWords text.data
    if words.length ≤ max_words then text
    else
      let truncated := joinSpace (words.take max_words)
      let last_period := pyRfindDot truncated
      if last_period ≥ (wordBudgetThreshold max_words : Int) then
        String.mk (truncated.take (last_period.toNat + 1))
      else
        String.mk truncated

/-- Number of words of a string, in the sense of Python `len(text.split())`. -/
def pyWordCount (s : String) : Nat := (pySplitWords s.data).length

/-! ## Identity resolver (`_get_user_key` in `app/routes/chat.py`)

`ip = req.headers.get("x-forwarded-for") or req.client.host or "unknown"`
`return ip.split(",")[0].strip()`
Header and peer address are `Option String` (absent headers / absent peer
host are `none`); Python `or` falls through on `None` and on `""`. -/

/-- Python `a or b` for an optional string `a`: falls through when `a` is
`None` or empty. -/
def pyOrStr (a : Option String) (b : String) : String :=
  match a with
  | some s => if s = "" then b else s
  | none => b

/-- Python `str.strip()` (ASCII whitespace). -/
def pyStrip (s : String) : String :=
  String.mk (((s.data.dropWhile pyIsSpace).reverse.dropWhile pyIsSpace).reverse)

/-- Python `s.split(",")` on the character list: separators kept as
boundaries, empty pieces preserved (`"".split(",") == [""]`). -/
def splitCommaChars : List Char → List (List Char)
  | [] => [[]]
  | c :: rest =>
    if c = ',' then [] :: splitCommaChars rest
    else
      match splitCommaChars rest with
      | [] => [[c]]
      | w :: ws => (c :: w) :: ws

/-- Python `s.split(",")`. -/
def pySplitComma (s : String) : List String :=
  (splitCommaChars s.data).map String.mk

/-- Model of `_get_user_key`. -/
def getUserKey (x_forwarded_for : Option String) (client_host : Option String) :
    String :=
  let ip := pyOrStr x_forwarded_for (pyOrStr client_host "unknown")
  pyStrip ((pySplitComma ip).headD "")

/-! ## Retrieval gateway (`app/services/pinecone_service.py`)

The remote index is an oracle; `search_similar`'s whole `try` body (lazy
initialization plus `index.query`) either yields the ranked matches or
raises, which the oracle models as `Except`. Float similarity scores are
never inspected by control flow, so they are carried as opaque integers. -/

/-- An embedding vector (float coordinates are opaque payload). -/
abbrev Embedding := List Int

/-- One match returned by `index.query(..., include_metadata=True)`. -/
structure PineMatch where
  id : String
  score : Int
  metadata_text : Option String
  metadata_source : Option String
deriving Repr, DecidableEq

/-- A document in the shape `search_similar` returns. -/
structure DocResult where
  id : String
  score : Int
  text : String
  source : String
deriving Repr, DecidableEq

/-- The remote Pinecone capability: initialization plus query, as one
fallible oracle call. -/
structure PineconeEnv where
  query : Embedding → Nat → Except String (List PineMatch)

/-- The `settings.top_k` default. -/
def topKDefault : Nat := 5

/-- Model of `PineconeService.search_similar`: on success, normalizes each match
(`metadata.get("text", "")`, `metadata.get("source", "unknown")`); on any
failure, re-raises the cause wrapped in an Error-searching-Pinecone message. -/
def searchSimilar (env : PineconeEnv) (query_embedding : Embedding)
    (top_k : Nat) : Except String (List DocResult) :=
  match env.query query_embedding top_k with
  | .ok ms => .ok (ms.map fun m =>
      { id := m.id, score := m.score, text := m.metadata_text.getD "",
        source := m.metadata_source.getD "unknown" })
  | .error e => .error ("Error searching Pinecone: " ++ e)

/-! ## Request orchestrator (`chat` in `app/routes/chat.py`)

The chat route keeps in-memory counters per user key; the handler body only
touches the current user's day/month counter entry, which is the
state threaded here (the module-level day/month reset runs before this body
and is not part of the orchestration claims). OpenAI calls are oracles. -/

/-- One conversation message (role and content). -/
structure Msg where
  role : String
  content : String
deriving Repr, DecidableEq

/-- The `ChatRequest` pydantic model. -/
structure ChatRequest where
  question : String
  conversation_history : List Msg
deriving Repr, DecidableEq

/-- One entry of the response `sources` list. -/
structure SourceEntry where
  text : String
  source : String
  score : Int
deriving Repr, DecidableEq

/-- The `ChatResponse` pydantic model. -/
structure ChatResponse where
  answer : String
  sources : List SourceEntry
  question : String
deriving Repr, DecidableEq

/-- What the endpoint produces: a response, or an HTTP error status with a
detail string. -/
inductive ChatOutcome where
  | ok (resp : ChatResponse)
  | httpError (status : Nat) (detail : String)
deriving Repr, DecidableEq

/-- Returns `true` iff the outcome is an HTTP error. -/
def ChatOutcome.isError : ChatOutcome → Bool
  | .ok _ => false
  | .httpError _ _ => true

/-- The current user's in-memory counters (`USAGE[user_key]`). -/
structure Usage where
  day : Nat
  month : Nat
deriving Repr, DecidableEq

/-- The constant `MAX_MESSAGES_PER_DAY`. -/
def maxMessagesPerDay : Nat := 25

/-- The constant `MAX_MESSAGES_PER_MONTH`. -/
def maxMessagesPerMonth : Nat := 750

/-- The remote OpenAI capabilities used by the endpoint. -/
structure ChatEnv where
  embed : List String → Except String (List Embedding)
  pinecone : PineconeEnv
  complete : List Msg → String → Except String String

/-- Model of `OpenAIService.get_chat_completion`: system-prompt assembly is opaque to
control flow; the remote completion either yields the raw content, which is
then truncated to 300 words, or raises, which is wrapped and re-raised. -/
def getChatCompletion (env : ChatEnv) (messages : List Msg) (context : String) :
    Except String String :=
  match env.complete messages context with
  | .ok content => .ok (truncateToWordLimit content 300)
  | .error e => .error ("Error generating chat completion: " ++ e)

/-- The fallback context used when no documents are retrieved. -/
def fallbackContext : String :=
  "This is a Christian apologetics chatbot. You can ask questions about Christian faith, apologetics, and biblical topics."

/-- The `try/except` around `pinecone_service.search_similar`: any retrieval
error is swallowed and replaced by no documents. -/
def retrieveDocs (penv : PineconeEnv) (query_embedding : Embedding) :
    List DocResult :=
  match searchSimilar penv query_embedding topKDefault with
  | .ok ds => ds
  | .error _ => []

/-- One response `sources` entry: the document text truncated to a 200
character preview with a trailing ellipsis when longer than 200. -/
def buildSource (doc : DocResult) : SourceEntry :=
  { text := if doc.text.length > 200 then String.mk (doc.text.data.take 200) ++ "..."
            else doc.text,
    source := doc.source, score := doc.score }

/-- The `chat` endpoint body, from the limit checks on. A 429 raised inside
the `try` block is caught by the blanket `except Exception` and re-surfaced
as a 500 whose detail wraps `str(e)` (status and detail rendered); the claims
never inspect these detail strings. -/
def chatEndpoint (env : ChatEnv) (usage : Usage) (request : ChatRequest) :
    ChatOutcome × Usage :=
  if usage.day ≥ maxMessagesPerDay then
    (.httpError 500 ("Error processing chat request: 429: Daily limit of 25 messages exceeded. Try again tomorrow."), usage)
  else if usage.month ≥ maxMessagesPerMonth then
    (.httpError 500 ("Error processing chat request: 429: Monthly limit of 750 messages exceeded. Try again next month."), usage)
  else
    match env.embed [request.question] with
    | .error e => (.httpError 500 ("Error processing chat request: " ++ e), usage)
    | .ok [] =>
      -- `question_embedding[0]` raises IndexError, caught by the blanket handler
      (.httpError 500 "Error processing chat request: list index out of range", usage)
    | .ok (q0 :: _) =>
      let relevant_docs := retrieveDocs env.pinecone q0
      let context := if relevant_docs.isEmpty then fallbackContext
                     else String.intercalate "\n\n" (relevant_docs.map (fun d => d.text))
      let sources := if relevant_docs.isEmpty then []
                     else relevant_docs.map buildSource
      let messages := request.conversation_history ++ [{ role := "user", content := request.question }]
      match getChatCompletion env messages context with
      | .error e => (.httpError 500 ("Error processing chat request: " ++ e), usage)
      | .ok answer =>
        (.ok { answer := answer, sources := sources, question := request.question },
         { day := usage.day + 1, month := usage.month + 1 })

/-! ## Helper lemmas -/

theorem dateBefore_irrefl (d : Date) : dateBefore d d = false := by
  simp [dateBefore]

theorem monthBefore_irrefl (d : Date) : monthBefore d d = false := by
  simp [monthBefore]

theorem monthBefore_imp_dateBefore {a b : Date} (h : monthBefore a b = true) :
    dateBefore a b = true := by
  simp [monthBefore] at h
  simp [dateBefore]
  rcases h with h | ⟨h1, h2⟩
  · exact Or.inl h
  · exact Or.inr ⟨h1, Or.inl h2⟩

theorem resetDaily_user_id (u : UserUsage) (now : Date) :
    (resetDailyCountIfNeeded u now).1.user_id = u.user_id := by
  unfold resetDailyCountIfNeeded; split <;> rfl

theorem resetDaily_monthly_count (u : UserUsage) (now : Date) :
    (resetDailyCountIfNeeded u now).1.monthly_message_count =
      u.monthly_message_count := by
  unfold resetDailyCountIfNeeded; split <;> rfl

/-- Once the daily rollover has run on a record, the monthly rollover can
never fire on the result: either the daily reset just stamped
`last_reset_date := now` (and `monthBefore now now` is `false`), or no day
boundary was crossed, in which case no month boundary was crossed either. -/
theorem resetMonthly_after_daily (u : UserUsage) (now : Date) :
    resetMonthlyCountIfNeeded (resetDailyCountIfNeeded u now).1 now =
      ((resetDailyCountIfNeeded u now).1, false) := by
  unfold resetDailyCountIfNeeded
  by_cases hd : dateBefore u.last_reset_date now
  · simp [hd, resetMonthlyCountIfNeeded, monthBefore_irrefl]
  · have hm : monthBefore u.last_reset_date now = false := by
      cases hmb : monthBefore u.last_reset_date now
      · rfl
      · exact absurd (monthBefore_imp_dateBefore hmb) (by simpa using hd)
    simp [hd, resetMonthlyCountIfNeeded, hm]

/-- The record every service operation works with after both lazy rollovers
keeps the original monthly count: the monthly reset is dead code. -/
theorem monthly_count_after_rollovers (u : UserUsage) (now : Date) :
    (resetMonthlyCountIfNeeded (resetDailyCountIfNeeded u now).1 now).1.monthly_message_count
      = u.monthly_message_count := by
  rw [resetMonthly_after_daily]
  exact resetDaily_monthly_count u now

/-- The post-rollover record is a fixed point of the daily rollover at the
same date. -/
theorem rollovers_idempotent (u : UserUsage) (now : Date) :
    resetDailyCountIfNeeded
      (resetMonthlyCountIfNeeded (resetDailyCountIfNeeded u now).1 now).1 now =
      ((resetMonthlyCountIfNeeded (resetDailyCountIfNeeded u now).1 now).1, false) := by
  rw [resetMonthly_after_daily]
  unfold resetDailyCountIfNeeded
  by_cases hd : dateBefore u.last_reset_date now
  · simp [hd, dateBefore_irrefl]
  · simp [hd]

theorem dbFirst_append_none {db : UsageDb} {uid : String}
    (h : dbFirst db uid = none) (u : UserUsage) (hu : (u.user_id == uid) = true) :
    dbFirst (db ++ [u]) uid = some u := by
  unfold dbFirst at h ⊢
  simp [List.find?_append, h, hu]

theorem dbFirst_dbCommit {db : UsageDb} {uid : String} {u : UserUsage}
    (h : dbFirst db uid = some u) (v : UserUsage) (hv : v.user_id = u.user_id) :
    dbFirst (dbCommit db v) uid = some v := by
  have h0 := h
  unfold dbFirst at h0
  have hu1 := List.find?_some h0
  have hu : (u.user_id == uid) = true := hu1
  have hveq : v.user_id = uid := by rw [hv]; simpa using hu
  clear hu1 h0
  induction db with
  | nil => simp [dbFirst] at h
  | cons r rs ih =>
    by_cases hr : (r.user_id == uid) = true
    · have hru : r = u := by
        unfold dbFirst at h
        simpa [hr] using h
      subst hru
      have hc : (r.user_id == v.user_id) = true := by simp [hv]
      unfold dbFirst dbCommit
      rw [List.map_cons, if_pos hc]
      exact List.find?_cons_of_pos _ (by simpa using hveq)
    · have h2 : dbFirst rs uid = some u := by
        unfold dbFirst at h ⊢
        simpa [hr] using h
      have hrv : ¬ ((r.user_id == v.user_id) = true) := by
        rw [hveq]; exact hr
      have ihr := ih h2
      unfold dbFirst dbCommit at ihr ⊢
      rw [List.map_cons, if_neg hrv]
      refine Eq.trans ?_ ihr
      exact List.find?_cons_of_neg _ hr

theorem stringMk_ne_empty {l : List Char} (h : l ≠ []) : String.mk l ≠ "" := by
  intro hc
  apply h
  have hd := congrArg String.data hc
  simpa using hd

theorem pySplitWords_ne_nil {l w : List Char} (h : w ∈ pySplitWords l) :
    w ≠ [] := by
  unfold pySplitWords at h
  have h2 := (List.mem_filter.mp h).2
  simpa using h2

theorem joinSpace_ne_nil {ws : List (List Char)} (hne : ws ≠ [])
    (hw : ∀ w ∈ ws, w ≠ []) : joinSpace ws ≠ [] := by
  match ws with
  | [] => exact absurd rfl hne
  | [w] =>
    have h1 := hw w (by simp)
    simpa [joinSpace] using h1
  | w :: x :: rest => simp [joinSpace]

theorem truncateToWordLimit_ne_empty {text : String} (h : text ≠ "") :
    truncateToWordLimit text 300 ≠ "" := by
  unfold truncateToWordLimit
  rw [if_neg h]
  dsimp only
  by_cases h2 : (pySplitWords text.data).length ≤ 300
  · rw [if_pos h2]; exact h
  · rw [if_neg h2]
    have htake : (pySplitWords text.data).take 300 ≠ [] := by
      intro hnil
      have hlen := congrArg List.length hnil
      rw [List.length_take] at hlen
      simp only [List.length_nil] at hlen
      omega
    have hjoin : joinSpace ((pySplitWords text.data).take 300) ≠ [] :=
      joinSpace_ne_nil htake (fun w hw => pySplitWords_ne_nil (List.take_subset _ _ hw))
    by_cases h3 : pyRfindDot (joinSpace ((pySplitWords text.data).take 300)) ≥
        (wordBudgetThreshold 300 : Int)
    · rw [if_pos h3]
      apply stringMk_ne_empty
      obtain ⟨a, t, he⟩ := List.exists_cons_of_ne_nil hjoin
      rw [he, List.take_succ_cons]
      simp
    · rw [if_neg h3]
      exact stringMk_ne_empty hjoin

theorem incrementUsage_empty (ident : String) (now : Date) :
    incrementUsage ident [] now =
      [{ user_id := getUserHash ident, daily_message_count := 1,
         monthly_message_count := 1, last_reset_date := now }] := by
  unfold incrementUsage getOrCreateUserUsage dbFirst dbCommit
  simp [List.find?, resetDailyCountIfNeeded, resetMonthlyCountIfNeeded,
        dateBefore_irrefl, monthBefore_irrefl]

theorem incrementUsage_singleton (ident : String) (now : Date) (a b : Nat) :
    incrementUsage ident
      [{ user_id := getUserHash ident, daily_message_count := a,
         monthly_message_count := b, last_reset_date := now }] now =
      [{ user_id := getUserHash ident, daily_message_count := a + 1,
         monthly_message_count := b + 1, last_reset_date := now }] := by
  unfold incrementUsage getOrCreateUserUsage dbFirst dbCommit
  simp [List.find?, resetDailyCountIfNeeded, resetMonthlyCountIfNeeded,
        dateBefore_irrefl, monthBefore_irrefl]

/-- Iterated service calls: `N` successive `increment_usage` calls for the same identifier against
the same store (all in one calendar day, here: at one date). -/
def iterIncrement (ident : String) (now : Date) : Nat → UsageDb → UsageDb
  | 0, db => db
  | n + 1, db => incrementUsage ident (iterIncrement ident now n db) now

theorem iterIncrement_closed (ident : String) (now : Date) :
    ∀ n : Nat, iterIncrement ident now (n + 1) [] =
      [{ user_id := getUserHash ident, daily_message_count := n + 1,
         monthly_message_count := n + 1, last_reset_date := now }] := by
  intro n
  induction n with
  | zero =>
    show incrementUsage ident (iterIncrement ident now 0 []) now = _
    rw [iterIncrement]
    exact incrementUsage_empty ident now
  | succ k ih =>
    show incrementUsage ident (iterIncrement ident now (k + 1) []) now = _
    rw [ih]
    exact incrementUsage_singleton ident now (k + 1) (k + 1)

theorem sha256HexChars_length (msg : List Nat) : (sha256HexChars msg).length = 64 := by
  unfold sha256HexChars wordHex
  simp

theorem hexChar_mem (n : Nat) : hexChar n ∈ hexDigits := by
  unfold hexChar
  have h : n % 16 < 16 := Nat.mod_lt _ (by norm_num)
  set m := n % 16 with hm
  clear hm
  interval_cases m <;> decide

theorem wordHex_mem {w : Nat} {c : Char} (h : c ∈ wordHex w) : c ∈ hexDigits := by
  unfold wordHex at h
  simp only [List.mem_cons, List.not_mem_nil, or_false] at h
  rcases h with h | h | h | h | h | h | h | h <;> (subst h; exact hexChar_mem _)

theorem getUserHash_length (k : String) : (getUserHash k).length = 16 := by
  show ((sha256HexChars (strBytes k)).take 16).length = 16
  rw [List.length_take, sha256HexChars_length]
  omega

theorem getUserHash_mem_hex (k : String) :
    ∀ c ∈ (getUserHash k).data, c ∈ hexDigits := by
  intro c hc
  have hc2 : c ∈ sha256HexChars (strBytes k) := by
    have hdata : (getUserHash k).data = (sha256HexChars (strBytes k)).take 16 := rfl
    rw [hdata] at hc
    exact List.take_subset _ _ hc
  simp only [sha256HexChars, List.mem_append] at hc2
  rcases hc2 with ((((((h | h) | h) | h) | h) | h) | h) | h <;> exact wordHex_mem h

/-- C6: `_get_user_hash` is a deterministic pure function of the raw
identifier alone — no per-process salt or other varying input exists in its
definition, so any two invocations (including across process restarts)
agree — and its value is a cryptographic digest truncated to 16 lowercase
hex characters. -/
theorem getUserHash_deterministic (k1 k2 : String) (h : k1 = k2) :
    getUserHash k1 = getUserHash k2 ∧ (getUserHash k1).length = 16 ∧
      ∀ c ∈ (getUserHash k1).data, c ∈ hexDigits :=
  ⟨by rw [h], getUserHash_length k1, getUserHash_mem_hex k1⟩

/-- Witness for C6 at the identifier `"203.0.113.7"`. -/
theorem getUserHash_deterministic_witness :
    getUserHash "203.0.113.7" = getUserHash "203.0.113.7" ∧
    (getUserHash "203.0.113.7").length = 16 ∧
    ∀ c ∈ (getUserHash "203.0.113.7").data, c ∈ hexDigits :=
  getUserHash_deterministic "203.0.113.7" "203.0.113.7" rfl

/-- C10: for every identifier and store state — including records whose
counts exceed their limits — `get_usage_stats` reports
`daily_remaining = max(0, daily_limit - daily_used)` and
`monthly_remaining = max(0, monthly_limit - monthly_used)`, so the remaining
values are never negative. -/
theorem getUsageStats_remaining_nonneg (ident : String) (db : UsageDb) (now : Date) :
    (getUsageStats ident db now).daily_remaining =
      max 0 ((dailyLimit : Int) - ((getUsageStats ident db now).daily_used : Int)) ∧
    (getUsageStats ident db now).monthly_remaining =
      max 0 ((monthlyLimit : Int) - ((getUsageStats ident db now).monthly_used : Int)) ∧
    0 ≤ (getUsageStats ident db now).daily_remaining ∧
    0 ≤ (getUsageStats ident db now).monthly_remaining :=
  ⟨rfl, rfl, le_max_left 0 _, le_max_left 0 _⟩

/-- C5 counterexample: with the forwarded header present but empty and peer
address `"10.0.0.5"`, the code returns the peer address, not the (empty)
first comma-separated entry of the header that the claim prescribes for
every present header. -/
theorem getUserKey_empty_header_counterexample :
    getUserKey (some "") (some "10.0.0.5") = "10.0.0.5" ∧
    getUserKey (some "") (some "10.0.0.5") ≠
      pyStrip ((pySplitComma "").headD "") := by
  constructor <;> decide

/-- C5 (amended): the resolver returns the first comma-separated entry,
trimmed, of the forwarded header when it is present and non-empty; otherwise
of the peer address when that is present and non-empty; otherwise the
literal `"unknown"`. -/
theorem getUserKey_spec (hdr host : Option String) :
    (∀ s, hdr = some s → s ≠ "" →
      getUserKey hdr host = pyStrip ((pySplitComma s).headD "")) ∧
    ((hdr = none ∨ hdr = some "") → ∀ t, host = some t → t ≠ "" →
      getUserKey hdr host = pyStrip ((pySplitComma t).headD "")) ∧
    ((hdr = none ∨ hdr = some "") → (host = none ∨ host = some "") →
      getUserKey hdr host = "unknown") := by
  refine ⟨?_, ?_, ?_⟩
  · intro s hs hne
    subst hs
    unfold getUserKey pyOrStr
    simp [hne]
  · intro hh t ht hne
    subst ht
    rcases hh with h | h <;> subst h <;> (unfold getUserKey pyOrStr; simp [hne])
  · intro hh hhost
    rcases hh with h | h <;> rcases hhost with h2 | h2 <;> subst h <;> subst h2 <;> decide

/-- Witness for C5 at a two-entry forwarded header. -/
theorem getUserKey_spec_witness :
    getUserKey (some "203.0.113.7, 10.0.0.1") none = "203.0.113.7" := by
  have h := (getUserKey_spec (some "203.0.113.7, 10.0.0.1") none).1
    "203.0.113.7, 10.0.0.1" rfl (by decide)
  rw [h]
  decide

/-- A Pinecone environment whose remote query always fails. -/
def failingPineconeEnv : PineconeEnv :=
  ⟨fun _ _ => .error "connection timeout"⟩

/-- C3 counterexample: when the provider raises, `search_similar` does not
return an empty document sequence — it re-raises a wrapped error; the
conversion to `[]` lives in its caller. -/
theorem searchSimilar_error_counterexample :
    searchSimilar failingPineconeEnv [] 5 =
      .error "Error searching Pinecone: connection timeout" ∧
    searchSimilar failingPineconeEnv [] 5 ≠ .ok [] := by
  refine ⟨rfl, ?_⟩
  simp [searchSimilar, failingPineconeEnv]

/-- C3 (amended): `search_similar` converts every provider failure into a
re-raised wrapped exception, and the chat orchestrator's `try/except`
around the call converts that failure into an empty document sequence. -/
theorem searchSimilar_error_propagates (env : PineconeEnv) (v : Embedding) :
    (∀ (k : Nat) (e : String), env.query v k = .error e →
      searchSimilar env v k = .error ("Error searching Pinecone: " ++ e)) ∧
    (∀ e : String, searchSimilar env v topKDefault = .error e →
      retrieveDocs env v = []) := by
  constructor
  · intro k e he
    unfold searchSimilar
    rw [he]
  · intro e he
    unfold retrieveDocs
    rw [he]

/-- Witness for C3 on an always-failing environment. -/
theorem searchSimilar_error_propagates_witness :
    searchSimilar failingPineconeEnv [] 5 =
      .error "Error searching Pinecone: connection timeout" ∧
    retrieveDocs failingPineconeEnv [] = [] := by
  refine ⟨(searchSimilar_error_propagates failingPineconeEnv []).1 5 "connection timeout" rfl, ?_⟩
  exact (searchSimilar_error_propagates failingPineconeEnv []).2
    "Error searching Pinecone: connection timeout"
    ((searchSimilar_error_propagates failingPineconeEnv []).1 5 "connection timeout" rfl)

set_option maxRecDepth 100000 in
set_option maxHeartbeats 1000000 in
/-- C1 (code bug): a record dated last month with `monthly_count = 750` at
its limits is NOT monthly-reset by `check_rate_limit` — the daily rollover
stamps `last_reset_date = now` before the monthly comparison reads it, so
the monthly reset never fires; the call denies with the monthly-limit
message and the stored monthly count stays 750, where the spec (and the
service's own docstring and denial text "Limit resets next month") promise
a reset to 0 and `allowed = true`. -/
theorem checkRateLimit_monthly_rollover_never_fires :
    checkRateLimit "203.0.113.7"
      [{ user_id := getUserHash "203.0.113.7", daily_message_count := 25,
         monthly_message_count := 750, last_reset_date := ⟨2024, 1, 15⟩ }]
      ⟨2024, 2, 15⟩ =
    { allowed := false, message := monthlyLimitMsg,
      usage_info := { daily_used := 0, daily_limit := 25,
                      monthly_used := 750, monthly_limit := 750 },
      db := [{ user_id := getUserHash "203.0.113.7", daily_message_count := 0,
               monthly_message_count := 750, last_reset_date := ⟨2024, 2, 15⟩ }] } := by
  simp [checkRateLimit, getOrCreateUserUsage, dbFirst, List.find?, dbCommit,
        resetDailyCountIfNeeded, resetMonthlyCountIfNeeded,
        show dateBefore ⟨2024, 1, 15⟩ ⟨2024, 2, 15⟩ = true from by decide,
        monthBefore_irrefl, dailyLimit, monthlyLimit, dailyLimitMsg, monthlyLimitMsg]

/-- C8: the in-memory counters change only on a successful pipeline: every
error outcome (rate-limit, embedding failure, generation failure) leaves
the user's counters untouched, and an ok response increments both by one. -/
theorem chatEndpoint_usage_iff_success (env : ChatEnv) (usage : Usage)
    (request : ChatRequest) :
    ((chatEndpoint env usage request).1.isError = true →
      (chatEndpoint env usage request).2 = usage) ∧
    (∀ resp, (chatEndpoint env usage request).1 = ChatOutcome.ok resp →
      (chatEndpoint env usage request).2 =
        { day := usage.day + 1, month := usage.month + 1 }) := by
  unfold chatEndpoint
  split
  · exact ⟨fun _ => rfl, fun resp h => by simp at h⟩
  · split
    · exact ⟨fun _ => rfl, fun resp h => by simp at h⟩
    · split
      · exact ⟨fun _ => rfl, fun resp h => by simp at h⟩
      · exact ⟨fun _ => rfl, fun resp h => by simp at h⟩
      · dsimp only
        split
        · exact ⟨fun _ => rfl, fun resp h => by simp at h⟩
        · exact ⟨fun h => by simp [ChatOutcome.isError] at h, fun resp h => rfl⟩

/-- A chat environment whose embedding call always fails. -/
def chatEnvEmbedDown : ChatEnv :=
  ⟨fun _ => .error "embedding service down", ⟨fun _ _ => .ok []⟩, fun _ _ => .ok "unused"⟩

/-- Witness for C8: a failed embedding leaves the counters unchanged. -/
theorem chatEndpoint_usage_iff_success_witness :
    (chatEndpoint chatEnvEmbedDown { day := 0, month := 0 }
      { question := "q", conversation_history := [] }).2 =
      { day := 0, month := 0 } :=
  (chatEndpoint_usage_iff_success chatEnvEmbedDown { day := 0, month := 0 }
    { question := "q", conversation_history := [] }).1 rfl

/-- Input of 301 words whose only period ends word 91 (0-based index 90), at
character index 272 of the space-joined text. -/
def c2Text : String :=
  String.intercalate " " (List.replicate 90 "aa" ++ ["aa."] ++ List.replicate 210 "b")

/-- Input of 400 words whose only sentence-terminal punctuation is the mark ending
word 299 (0-based index 298). -/
def c2TextBang : String :=
  String.intercalate " " (List.replicate 298 "w" ++ ["ok!"] ++ List.replicate 101 "w")

set_option maxRecDepth 100000 in
set_option maxHeartbeats 2000000 in
/-- C2 counterexample. `c2Text` has over 300 words and no sentence-terminal
punctuation at or past word position 180, so the claim prescribes a hard cut
at exactly 300 words; the code instead cuts at the period of word 91,
because its `>= int(300 * 0.6)` test compares the CHARACTER index of the
last `'.'` in the joined text (272 here), not a word position. `c2TextBang`
has a `!` ending word 299, which the claim's "sentence-terminal punctuation
at or past 60% of the word budget" selects, yet the code (which looks for
`'.'` only) hard-cuts at 300 words. -/
theorem truncateToWordLimit_counterexample :
    pyWordCount c2Text = 301 ∧
    (((pySplitWords c2Text.data).take 300).drop 180).all
      (fun w => w.all (fun c => c ≠ '.' ∧ c ≠ '!' ∧ c ≠ '?')) = true ∧
    truncateToWordLimit c2Text 300 ≠
      String.mk (joinSpace ((pySplitWords c2Text.data).take 300)) ∧
    pyWordCount (truncateToWordLimit c2Text 300) = 91 ∧
    pyWordCount c2TextBang = 400 ∧
    (pySplitWords c2TextBang.data).getD 298 [] = ['o', 'k', '!'] ∧
    truncateToWordLimit c2TextBang 300 =
      String.mk (joinSpace ((pySplitWords c2TextBang.data).take 300)) ∧
    pyWordCount (truncateToWordLimit c2TextBang 300) = 300 := by
  decide

/-- C2 (amended): empty input is returned as-is; input of at most 300 words
is returned unchanged; for longer input the first 300 words are joined with
single spaces and the code cuts just after the last `'.'` of that joined
string — only `'.'` counts as sentence-terminal — when its CHARACTER index
is at least `int(300 * 0.6) = 180`; otherwise it hard-cuts at the 300-word
boundary. -/
theorem truncateToWordLimit_spec (text : String) :
    (truncateToWordLimit "" 300 = "") ∧
    (pyWordCount text ≤ 300 → truncateToWordLimit text 300 = text) ∧
    (pyWordCount text > 300 →
      (pyRfindDot (joinSpace ((pySplitWords text.data).take 300)) ≥ 180 →
        truncateToWordLimit text 300 =
          String.mk ((joinSpace ((pySplitWords text.data).take 300)).take
            ((pyRfindDot (joinSpace ((pySplitWords text.data).take 300))).toNat + 1))) ∧
      (pyRfindDot (joinSpace ((pySplitWords text.data).take 300)) < 180 →
        truncateToWordLimit text 300 =
          String.mk (joinSpace ((pySplitWords text.data).take 300)))) := by
  refine ⟨rfl, ?_, ?_⟩
  · intro hle
    unfold truncateToWordLimit
    by_cases h0 : text = ""
    · rw [if_pos h0, h0]
    · rw [if_neg h0]
      dsimp only
      have hle2 : (pySplitWords text.data).length ≤ 300 := hle
      rw [if_pos hle2]
  · intro hgt
    have h0 : text ≠ "" := by
      intro he
      rw [he] at hgt
      exact absurd hgt (by decide)
    have hgt2 : ¬ ((pySplitWords text.data).length ≤ 300) := by
      unfold pyWordCount at hgt
      omega
    constructor <;> intro hp
    · unfold truncateToWordLimit
      rw [if_neg h0]
      dsimp only
      have hp2 : pyRfindDot (joinSpace ((pySplitWords text.data).take 300)) ≥
          ((wordBudgetThreshold 300 : Nat) : Int) := hp
      rw [if_neg hgt2, if_pos hp2]
    · unfold truncateToWordLimit
      rw [if_neg h0]
      dsimp only
      have hp2 : ¬ (pyRfindDot (joinSpace ((pySplitWords text.data).take 300)) ≥
          ((wordBudgetThreshold 300 : Nat) : Int)) := not_le.mpr hp
      rw [if_neg hgt2, if_neg hp2]

/-- Witness for C2 on a short input, returned unchanged. -/
theorem truncateToWordLimit_spec_witness :
    truncateToWordLimit "It is true." 300 = "It is true." :=
  (truncateToWordLimit_spec "It is true.").2.1 (by decide)

/-- C4: for an admitted request whose retrieval raises while embedding and
generation succeed (with non-empty content), the endpoint substitutes the
fallback context, returns an ok response with a non-empty answer and an
empty sources list, and counts the request — retrieval failure never aborts
the request. -/
theorem chatEndpoint_retrieval_failure_resilient (env : ChatEnv) (usage : Usage)
    (request : ChatRequest) (emb : Embedding) (rest : List Embedding)
    (e g : String)
    (hday : usage.day < maxMessagesPerDay)
    (hmonth : usage.month < maxMessagesPerMonth)
    (hembed : env.embed [request.question] = .ok (emb :: rest))
    (hretr : env.pinecone.query emb topKDefault = .error e)
    (hgen : env.complete
      (request.conversation_history ++ [{ role := "user", content := request.question }])
      fallbackContext = .ok g)
    (hg : g ≠ "") :
    chatEndpoint env usage request =
      (ChatOutcome.ok { answer := truncateToWordLimit g 300,
                        sources := [],
                        question := request.question },
       { day := usage.day + 1, month := usage.month + 1 }) ∧
    truncateToWordLimit g 300 ≠ "" := by
  refine ⟨?_, truncateToWordLimit_ne_empty hg⟩
  have hdocs : retrieveDocs env.pinecone emb = [] := by
    unfold retrieveDocs searchSimilar
    rw [hretr]
  unfold chatEndpoint
  rw [if_neg (Nat.not_le.mpr hday), if_neg (Nat.not_le.mpr hmonth), hembed]
  dsimp only
  rw [hdocs]
  unfold getChatCompletion
  simp only [List.isEmpty_nil, List.map_nil, eq_self_iff_true, if_true]
  rw [hgen]

/-- A chat environment with working embedding and generation but a failing
vector store. -/
def chatEnvRetrievalDown : ChatEnv :=
  ⟨fun _ => .ok [[]], ⟨fun _ _ => .error "vector store down"⟩,
   fun _ _ => .ok "The answer."⟩

/-- Witness for C4: the failing vector store still yields an ok response. -/
theorem chatEndpoint_retrieval_failure_resilient_witness :
    chatEndpoint chatEnvRetrievalDown { day := 0, month := 0 }
      { question := "q", conversation_history := [] } =
      (ChatOutcome.ok { answer := truncateToWordLimit "The answer." 300,
                        sources := [],
                        question := "q" },
       { day := 1, month := 1 }) ∧
    truncateToWordLimit "The answer." 300 ≠ "" :=
  chatEndpoint_retrieval_failure_resilient chatEnvRetrievalDown
    { day := 0, month := 0 } { question := "q", conversation_history := [] }
    [] [] "vector store down" "The answer."
    (by decide) (by decide) rfl rfl rfl (by decide)

/-- C7: `check` on a freshly created record allows with both counters 0;
`N ≤ 25` same-day increments on the same identifier report
`daily_used = N`; and once the daily count has reached the limit of 25,
`check` denies with the daily-limit message. -/
theorem checkRateLimit_daily_quota (ident : String) (now : Date) (N : Nat)
    (hN : N ≤ dailyLimit) :
    ((checkRateLimit ident [] now).allowed = true ∧
      (checkRateLimit ident [] now).usage_info.daily_used = 0 ∧
      (checkRateLimit ident [] now).usage_info.monthly_used = 0) ∧
    (getUsageStats ident (iterIncrement ident now N []) now).daily_used = N ∧
    ((checkRateLimit ident (iterIncrement ident now dailyLimit []) now).allowed = false ∧
      (checkRateLimit ident (iterIncrement ident now dailyLimit []) now).message =
        dailyLimitMsg) := by
  refine ⟨?_, ?_, ?_⟩
  · simp [checkRateLimit, getOrCreateUserUsage, dbFirst, List.find?, dbCommit,
          resetDailyCountIfNeeded, resetMonthlyCountIfNeeded,
          dateBefore_irrefl, monthBefore_irrefl, dailyLimit, monthlyLimit]
  · cases N with
    | zero =>
      simp [iterIncrement, getUsageStats, getOrCreateUserUsage, dbFirst,
            List.find?, resetDailyCountIfNeeded, resetMonthlyCountIfNeeded,
            dateBefore_irrefl, monthBefore_irrefl]
    | succ n =>
      rw [iterIncrement_closed]
      simp [getUsageStats, getOrCreateUserUsage, dbFirst, List.find?,
            resetDailyCountIfNeeded, resetMonthlyCountIfNeeded,
            dateBefore_irrefl, monthBefore_irrefl]
  · rw [show dailyLimit = 24 + 1 from rfl, iterIncrement_closed]
    constructor <;>
      simp [checkRateLimit, getOrCreateUserUsage, dbFirst, List.find?, dbCommit,
            resetDailyCountIfNeeded, resetMonthlyCountIfNeeded,
            dateBefore_irrefl, monthBefore_irrefl, dailyLimit, monthlyLimit]

/-- Witness for C7 at a concrete identifier, date, and N = 2. -/
theorem checkRateLimit_daily_quota_witness :
    ((checkRateLimit "203.0.113.7" [] ⟨2024, 5, 1⟩).allowed = true ∧
      (checkRateLimit "203.0.113.7" [] ⟨2024, 5, 1⟩).usage_info.daily_used = 0 ∧
      (checkRateLimit "203.0.113.7" [] ⟨2024, 5, 1⟩).usage_info.monthly_used = 0) ∧
    (getUsageStats "203.0.113.7"
      (iterIncrement "203.0.113.7" ⟨2024, 5, 1⟩ 2 []) ⟨2024, 5, 1⟩).daily_used = 2 ∧
    ((checkRateLimit "203.0.113.7"
        (iterIncrement "203.0.113.7" ⟨2024, 5, 1⟩ dailyLimit []) ⟨2024, 5, 1⟩).allowed = false ∧
      (checkRateLimit "203.0.113.7"
        (iterIncrement "203.0.113.7" ⟨2024, 5, 1⟩ dailyLimit []) ⟨2024, 5, 1⟩).message =
        dailyLimitMsg) :=
  checkRateLimit_daily_quota "203.0.113.7" ⟨2024, 5, 1⟩ 2 (by decide)

/-- C9: `check` is idempotent when no day or month boundary intervenes
(both calls see the same current date): re-running `check` on the store the
first call produced returns the identical result — the same allowed flag,
message, and usage snapshot, and an unchanged store. -/
theorem checkRateLimit_idempotent (ident : String) (db : UsageDb) (now : Date) :
    checkRateLimit ident (checkRateLimit ident db now).db now =
      checkRateLimit ident db now := by
  cases hfind : dbFirst db (getUserHash ident) with
  | none =>
    have h2 : dbFirst
        (db ++ [{ user_id := getUserHash ident, daily_message_count := 0,
                  monthly_message_count := 0, last_reset_date := now }])
        (getUserHash ident) =
        some { user_id := getUserHash ident, daily_message_count := 0,
               monthly_message_count := 0, last_reset_date := now } :=
      dbFirst_append_none hfind _ (by simp)
    simp [checkRateLimit, getOrCreateUserUsage, hfind, h2,
          resetDailyCountIfNeeded, resetMonthlyCountIfNeeded,
          dateBefore_irrefl, monthBefore_irrefl, dailyLimit, monthlyLimit]
  | some u =>
    by_cases hd : dateBefore u.last_reset_date now = true
    · have h2 : dbFirst
          (dbCommit db { u with daily_message_count := 0, last_reset_date := now })
          (getUserHash ident) =
          some { u with daily_message_count := 0, last_reset_date := now } :=
        dbFirst_dbCommit hfind _ rfl
      simp [checkRateLimit, getOrCreateUserUsage, hfind, h2,
            resetDailyCountIfNeeded, resetMonthlyCountIfNeeded, hd,
            dateBefore_irrefl, monthBefore_irrefl,
            apply_ite CheckResult.db]
    · have hm : monthBefore u.last_reset_date now = false := by
        cases hmb : monthBefore u.last_reset_date now
        · rfl
        · exact absurd (monthBefore_imp_dateBefore hmb) (by simpa using hd)
      simp [checkRateLimit, getOrCreateUserUsage, hfind,
            resetDailyCountIfNeeded, resetMonthlyCountIfNeeded, hd, hm,
            apply_ite CheckResult.db]
